import Mathlib

/- Verification development for the WeatherXM MCP server.

   The development shallowly embeds the TypeScript sources:
   - the API client `weatherxmApiRequest` (src/utils/api-client.ts),
   - the pure formatting utilities (formatting module),
   - the ten tool handlers registered on the MCP server (main module).

   JS numbers are modelled as rationals (ℚ); the handful of host facilities
   the code delegates to (`Date` parsing, `toLocaleString`, the wall clock,
   `getTimezoneOffset`) are collected in an explicit environment record that
   theorems quantify over.  Handlers are modelled as functions from the
   (typed) API-client result to the text block they return. -/

/-! ## JS numeric and string primitives -/

/-- Executable floor on ℚ (`Rat.num / Rat.den` with Int euclidean division);
agrees with `Int.floor` by `Rat.floor_def`. -/
def ratFloor (q : ℚ) : ℤ := q.num / (q.den : ℤ)

/-- JS `Math.round`: the closest integer, ties towards +∞, i.e. ⌊x + 1/2⌋. -/
def jsRound (q : ℚ) : ℤ := ratFloor (q + 1/2)

/-- JS `Number.prototype.toFixed(f)` on an exact rational value, following the
ECMAScript algorithm: for negative input a leading "-" is emitted and the
magnitude is processed; the magnitude is scaled by 10^f and rounded to the
nearest integer with ties picking the larger integer; the digits are printed
with a decimal point inserted f places from the right (no point when f = 0). -/
def toFixed (f : ℕ) (q : ℚ) : String :=
  let sgn := if q < 0 then "-" else ""
  let n := (ratFloor (|q| * (10:ℚ)^f + 1/2)).toNat
  if f = 0 then sgn ++ toString n
  else
    let ip := n / 10^f
    let fpd := toString (n % 10^f)
    sgn ++ toString ip ++ "." ++ String.mk (List.replicate (f - fpd.length) '0') ++ fpd

/-- JS `String.prototype.includes`: substring containment. -/
def jsIncludes (s sub : String) : Bool := decide (sub.data <:+: s.data)

/-- Rendering of a JS number interpolated into a template literal.  Exact for
the integral values the handlers interpolate (JS prints an integral double
with no decimal point); a non-integral value is rendered as num/den, a
simplification no theorem in this file depends on. -/
def jsNumRepr (q : ℚ) : String :=
  if q.den = 1 then toString q.num else toString q.num ++ "/" ++ toString q.den

/-! ## API client (src/utils/api-client.ts) -/

/-- A JS `Error` value: the only observable the client and handlers use is
its `message`. -/
structure JsError where
  message : String
deriving DecidableEq

/-- Outcome of the `fetch` call inside `weatherxmApiRequest`, as observed by
the surrounding code: either an HTTP response whose `response.json()` read
yields a parsed value of type α or a parse `Error`, or a rejection of the
`fetch` promise itself with an `Error` (transport failure).  The type α of
the parsed body is a parameter, mirroring the unchecked `as T` casts at the
call sites. -/
inductive FetchOutcome (α : Type) where
  | response (status : ℕ) (statusText : String) (jsonResult : Except JsError α)
  | failure (e : JsError)

/-- `Response.ok` of the Fetch standard: status in the inclusive range
200–299. -/
def responseOk (status : ℕ) : Bool := 200 ≤ status && status ≤ 299

def networkErrorMessage : String :=
  "Unable to connect to WeatherXM service. Please check your internet connection."

/-- The `try` block of `weatherxmApiRequest`: error mapping by status code on
a non-ok response, otherwise the result of `response.json()`. -/
def weatherxmTryBlock {α : Type} : FetchOutcome α → Except JsError α
  | .failure e => .error e
  | .response status statusText jsonResult =>
    if !(responseOk status) then
      if status = 401 then
        .error ⟨"Invalid API key. Please check your WeatherXM API key."⟩
      else if status = 404 then
        .error ⟨"Station not found or no data available"⟩
      else if status = 429 then
        .error ⟨"API rate limit exceeded. Please try again later."⟩
      else if status = 500 then
        .error ⟨"WeatherXM service temporarily unavailable"⟩
      else
        .error ⟨"WeatherXM API error: " ++ toString status ++ " " ++ statusText⟩
    else jsonResult

/-- `weatherxmApiRequest`: the try block wrapped in the catch clause, which
replaces any caught `Error` whose message contains "fetch" by the network
error and rethrows every other error unchanged. -/
def weatherxmApiRequest {α : Type} (o : FetchOutcome α) : Except JsError α :=
  match weatherxmTryBlock o with
  | .ok v => .ok v
  | .error e =>
    if jsIncludes e.message "fetch" then .error ⟨networkErrorMessage⟩ else .error e

/-! ## Host environment -/

/-- The ambient JS host facilities that the formatters and handlers delegate
to: the wall clock (`Date.now`), `Date` parsing of a timestamp string to
milliseconds since the epoch, `toLocaleString "en-US"` with the fixed option
set used throughout the sources (rendering a millisecond instant), and
`getTimezoneOffset` at a given instant.  These are opaque host behaviors;
theorems quantify over the record. -/
structure JsEnv where
  nowMs : ℤ
  dateParse : String → ℤ
  localeString : ℤ → String
  tzOffsetAt : ℤ → ℤ

/-! ## Formatting utilities (formatting module) -/

/-- `formatTemperature`: both Fahrenheit (C×9/5+32) and Celsius to 1
decimal. -/
def formatTemperature (tempC : ℚ) : String :=
  let tempF := (tempC * 9) / 5 + 32
  toFixed 1 tempF ++ "°F (" ++ toFixed 1 tempC ++ "°C)"

/-- `formatWindSpeed`: m/s × 2.237, 1 decimal, "mph". -/
def formatWindSpeed (windSpeedMs : ℚ) : String :=
  toFixed 1 (windSpeedMs * 2.237) ++ " mph"

/-- `formatPressure`: hPa × 0.02953, 2 decimals, "inHg". -/
def formatPressure (pressureHpa : ℚ) : String :=
  toFixed 2 (pressureHpa * 0.02953) ++ " inHg"

/-- `formatPrecipitation`: mm / 25.4, 2 decimals, "in". -/
def formatPrecipitation (mm : ℚ) : String :=
  toFixed 2 (mm / 25.4) ++ " in"

/-- The 16 cardinal direction labels of `getWindDirection`, in source
order. -/
def directions16 : List String :=
  ["N", "NNE", "NE", "ENE", "E", "ESE", "SE", "SSE",
   "S", "SSW", "SW", "WSW", "W", "WNW", "NW", "NNW"]

/-- `getWindDirection`: index `Math.round(degrees / 22.5) % 16` into the
16-label table.  JS `%` is the remainder with the sign of the dividend
(`Int.tmod`); an out-of-range index (possible only for negative degrees)
reads `undefined` in JS, modelled by the default of `List.getD`. -/
def getWindDirection (degrees : ℚ) : String :=
  directions16.getD ((Int.tmod (jsRound (degrees / 22.5)) 16).toNat) "undefined"

/-- `formatLocalTime`: `new Date(timestamp)` rendered by the host's
`toLocaleString` with the fixed option set. -/
def formatLocalTime (env : JsEnv) (timestamp : String) : String :=
  env.localeString (env.dateParse timestamp)

/-- `formatTimeAgo`: minutes elapsed between the parsed timestamp and the
wall clock (`Math.floor` of the millisecond difference over 60000), rendered
as "just now" under one minute, "(m)m ago" under an hour, otherwise hours
with optional remainder minutes. -/
def formatTimeAgo (env : JsEnv) (timestamp : String) : String :=
  let diffMs := env.nowMs - env.dateParse timestamp
  let diffMinutes := Int.fdiv diffMs (1000 * 60)
  if diffMinutes < 1 then "just now"
  else if diffMinutes < 60 then toString diffMinutes ++ "m ago"
  else
    let hours := Int.fdiv diffMinutes 60
    let minutes := Int.tmod diffMinutes 60
    if minutes = 0 then toString hours ++ "h ago"
    else toString hours ++ "h " ++ toString minutes ++ "m ago"

/-- `getWeatherIconDescription`: fixed 11-entry lookup table with fallback
"Unknown". -/
def getWeatherIconDescription (icon : String) : String :=
  let iconMap : List (String × String) :=
    [("clear-day", "Clear"),
     ("clear-night", "Clear"),
     ("partly-cloudy-day", "Partly Cloudy"),
     ("partly-cloudy-night", "Partly Cloudy"),
     ("cloudy", "Cloudy"),
     ("fog", "Foggy"),
     ("rain", "Rainy"),
     ("sleet", "Sleet"),
     ("snow", "Snowy"),
     ("wind", "Windy"),
     ("thunderstorm", "Thunderstorm")]
  (iconMap.lookup icon).getD "Unknown"

/-! ## Data model (API type definitions module)

    Response-payload shapes, numbers as ℚ.  Array-valued response fields that
    the handlers guard with `|| []` are modelled as `Option` of a list: the
    unchecked `as T` casts let a missing or null field flow to the handler,
    and `none` models that absent value. -/

structure Location where
  lat : ℚ
  lon : ℚ
  elevation : ℚ

structure Observation where
  timestamp : String
  temperature : ℚ
  feels_like : ℚ
  dew_point : ℚ
  precipitation_rate : ℚ
  precipitation_accumulated : ℚ
  humidity : ℚ
  wind_speed : ℚ
  wind_gust : ℚ
  wind_direction : ℚ
  uv_index : ℚ
  pressure : ℚ
  solar_irradiance : ℚ
  icon : String

structure DataQuality where
  score : ℚ

structure LocationQuality where
  score : ℚ
  reason : String

structure Health where
  timestamp : String
  data_quality : DataQuality
  location_quality : LocationQuality

structure WeatherXMLatestResponse where
  observation : Observation
  health : Health
  location : Location

structure Station where
  id : String
  name : String
  cellIndex : String
  location : Location
  createdAt : String

structure Cell where
  index : String
  center : Location
  station_count : ℚ

structure HourlyForecastData where
  timestamp : String
  precipitation : ℚ
  precipitation_probability : ℚ
  temperature : ℚ
  icon : String
  wind_speed : ℚ
  wind_direction : ℚ
  humidity : ℚ
  pressure : ℚ
  uv_index : ℚ
  feels_like : ℚ

structure DailyForecast where
  temperature_max : ℚ
  temperature_min : ℚ
  precipitation_probability : ℚ
  precipitation_intensity : ℚ
  humidity : ℚ
  uv_index : ℚ
  pressure : ℚ
  icon : String
  precipitation_type : String
  wind_speed : ℚ
  wind_direction : ℚ
  timestamp : String

structure HistoricalDataPoint where
  timestamp : String
  temperature : ℚ
  feels_like : ℚ
  dew_point : ℚ
  precipitation_rate : ℚ
  precipitation_accumulated : ℚ
  humidity : ℚ
  wind_speed : ℚ
  wind_gust : ℚ
  wind_direction : ℚ
  uv_index : ℚ
  pressure : ℚ
  solar_irradiance : ℚ
  icon : String

structure WeatherAlert where
  id : String
  type : String
  severity : String
  title : String
  description : String
  effective : String
  expires : String
  areas : List String

structure WeatherXMStationsResponse where
  stations : Option (List Station)

structure WeatherXMHourlyForecastResponse where
  forecast : Option (List HourlyForecastData)

structure WeatherXMDailyForecastResponse where
  forecast : Option (List DailyForecast)

structure WeatherXMHistoricalResponse where
  data : Option (List HistoricalDataPoint)

structure WeatherXMAlertsResponse where
  alerts : Option (List WeatherAlert)

structure WeatherXMCellsResponse where
  cells : Option (List Cell)

structure SearchResult where
  stations : Option (List Station)
  total : ℚ
  page : ℚ
  limit : ℚ

structure WeatherXMSearchResponse where
  results : SearchResult

/-! ## Tool handlers (main module)

    Every handler wraps its body in try/catch; the catch converts the thrown
    value to "Error: <message>" (or "Error: Unknown error" for a non-Error
    throw) and returns it as an ordinary text result.  A handler is modelled
    as a function from the result of its API-client call — either the typed
    payload or a thrown value — to the text it returns. -/

/-- A JS thrown value as the handlers' catch clauses see it: an `Error`, or
anything else (which fails the `instanceof Error` test). -/
inductive Thrown where
  | error (e : JsError)
  | nonError

/-- The text produced by every handler's catch clause. -/
def caughtText : Thrown → String
  | .error e => "Error: " ++ e.message
  | .nonError => "Error: Unknown error"

/-- A typed client failure reaches the handler's catch as the `Error` it
threw. -/
def liftClient {α : Type} : Except JsError α → Except Thrown α
  | .ok v => .ok v
  | .error e => .error (.error e)

/-- A handler composed with the API client call it awaits. -/
def runTool {α : Type} (handler : Except Thrown α → String) (o : FetchOutcome α) : String :=
  handler (liftClient (weatherxmApiRequest o))

/-- JS `Math.ceil`. -/
def jsCeil (q : ℚ) : ℤ := -(ratFloor (-q))

/-- `get_current_weather`: single-station snapshot with conditional wind-gust,
UV, solar-irradiance and precipitation lines. -/
def get_current_weather (env : JsEnv) (station_id : String)
    (res : Except Thrown WeatherXMLatestResponse) : String :=
  match res with
  | .error t => caughtText t
  | .ok data =>
    let obs := data.observation
    let location := data.location
    let health := data.health
    "# Current Weather\n\n"
    ++ "**Station ID:** " ++ station_id ++ "\n"
    ++ "**Location:** " ++ toFixed 4 location.lat ++ ", " ++ toFixed 4 location.lon ++ "\n"
    ++ "**Elevation:** " ++ jsNumRepr location.elevation ++ "m\n\n"
    ++ "**Observed:** " ++ formatLocalTime env obs.timestamp ++ " - "
      ++ formatTimeAgo env obs.timestamp ++ "\n\n"
    ++ "**Temperature:** " ++ formatTemperature obs.temperature ++ "\n"
    ++ "**Feels Like:** " ++ formatTemperature obs.feels_like ++ "\n"
    ++ "**Conditions:** " ++ getWeatherIconDescription obs.icon ++ "\n"
    ++ "**Humidity:** " ++ toFixed 0 obs.humidity ++ "%\n"
    ++ "**Dew Point:** " ++ formatTemperature obs.dew_point ++ "\n"
    ++ "**Wind:** " ++ formatWindSpeed obs.wind_speed ++ " from "
      ++ getWindDirection obs.wind_direction ++ " (" ++ jsNumRepr obs.wind_direction ++ "°)\n"
    ++ (if obs.wind_gust > obs.wind_speed then
          "**Wind Gust:** " ++ formatWindSpeed obs.wind_gust ++ "\n"
        else "")
    ++ "**Pressure:** " ++ formatPressure obs.pressure ++ "\n"
    ++ (if obs.uv_index > 0 then "**UV Index:** " ++ toFixed 1 obs.uv_index ++ "\n" else "")
    ++ (if obs.solar_irradiance > 0 then
          "**Solar Irradiance:** " ++ toFixed 0 obs.solar_irradiance ++ " W/m²\n"
        else "")
    ++ (if obs.precipitation_rate > 0 then
          "**Precipitation Rate:** " ++ formatPrecipitation obs.precipitation_rate ++ "/hr\n"
        else "")
    ++ (if obs.precipitation_accumulated > 0 then
          "**Precipitation Accumulated:** "
            ++ formatPrecipitation obs.precipitation_accumulated ++ "\n"
        else "")
    ++ "\n**Data Quality Score:** " ++ toFixed 0 (health.data_quality.score * 100) ++ "%\n"

/-- One iteration of the `get_hourly_forecast` rendering loop. -/
def hourlyLine (env : JsEnv) (hour : HourlyForecastData) : String :=
  "## " ++ formatLocalTime env hour.timestamp ++ "\n\n"
  ++ "**Temperature:** " ++ formatTemperature hour.temperature ++ "\n"
  ++ "**Feels Like:** " ++ formatTemperature hour.feels_like ++ "\n"
  ++ "**Conditions:** " ++ getWeatherIconDescription hour.icon ++ "\n"
  ++ "**Precipitation:** " ++ formatPrecipitation hour.precipitation ++ " ("
    ++ toFixed 0 (hour.precipitation_probability * 100) ++ "% chance)\n"
  ++ "**Wind:** " ++ formatWindSpeed hour.wind_speed ++ " from "
    ++ getWindDirection hour.wind_direction ++ "\n"
  ++ "**Humidity:** " ++ toFixed 0 hour.humidity ++ "%\n"
  ++ "**Pressure:** " ++ formatPressure hour.pressure ++ "\n"
  ++ "**UV Index:** " ++ toFixed 1 hour.uv_index ++ "\n\n"
  ++ "---\n\n"

/-- `get_hourly_forecast`: `data.forecast || []`, a no-forecast message when
the list is empty, otherwise one markdown section per point in array
order. -/
def get_hourly_forecast (env : JsEnv) (station_id : String) (hours : ℚ)
    (res : Except Thrown WeatherXMHourlyForecastResponse) : String :=
  match res with
  | .error t => caughtText t
  | .ok data =>
    let forecast := data.forecast.getD []
    if forecast.length = 0 then
      "No hourly forecast available for station " ++ station_id
    else
      forecast.foldl (fun md hour => md ++ hourlyLine env hour)
        ("# Hourly Forecast - " ++ station_id ++ "\n\n"
         ++ "Forecast for the next " ++ jsNumRepr hours ++ " hours\n\n")

/-- One iteration of the `get_daily_forecast` rendering loop. -/
def dailyLine (env : JsEnv) (day : DailyForecast) : String :=
  "## " ++ formatLocalTime env day.timestamp ++ "\n\n"
  ++ "**High:** " ++ formatTemperature day.temperature_max ++ "\n"
  ++ "**Low:** " ++ formatTemperature day.temperature_min ++ "\n"
  ++ "**Conditions:** " ++ getWeatherIconDescription day.icon ++ "\n"
  ++ "**Precipitation:** " ++ toFixed 0 (day.precipitation_probability * 100)
    ++ "% chance, " ++ day.precipitation_type ++ "\n"
  ++ "**Wind:** " ++ formatWindSpeed day.wind_speed ++ " from "
    ++ getWindDirection day.wind_direction ++ "\n"
  ++ "**Humidity:** " ++ toFixed 0 day.humidity ++ "%\n"
  ++ "**Pressure:** " ++ formatPressure day.pressure ++ "\n"
  ++ "**UV Index:** " ++ toFixed 1 day.uv_index ++ "\n\n"
  ++ "---\n\n"

/-- `get_daily_forecast`: `data.forecast || []`, a no-forecast message when
the list is empty, otherwise one markdown section per day in array order. -/
def get_daily_forecast (env : JsEnv) (station_id : String) (days : ℚ)
    (res : Except Thrown WeatherXMDailyForecastResponse) : String :=
  match res with
  | .error t => caughtText t
  | .ok data =>
    let forecast := data.forecast.getD []
    if forecast.length = 0 then
      "No daily forecast available for station " ++ station_id
    else
      forecast.foldl (fun md day => md ++ dailyLine env day)
        ("# Daily Forecast - " ++ station_id ++ "\n\n"
         ++ "Forecast for the next " ++ jsNumRepr days ++ " days\n\n")

/-- `historicalData.map(d => d.temperature)`. -/
def histTemperatures (hd : List HistoricalDataPoint) : List ℚ :=
  hd.map (·.temperature)

/-- `Math.max(...temperatures)` over the (guarded nonempty) array: the fold
of `max`, seeded with the first element. -/
def histMaxTemp (hd : List HistoricalDataPoint) : ℚ :=
  (histTemperatures hd).foldl max ((histTemperatures hd).headD 0)

/-- `Math.min(...temperatures)` over the (guarded nonempty) array. -/
def histMinTemp (hd : List HistoricalDataPoint) : ℚ :=
  (histTemperatures hd).foldl min ((histTemperatures hd).headD 0)

/-- `temperatures.reduce((a, b) => a + b, 0) / temperatures.length`. -/
def histAvgTemp (hd : List HistoricalDataPoint) : ℚ :=
  (histTemperatures hd).foldl (· + ·) 0 / ((histTemperatures hd).length : ℚ)

/-- `historicalData.reduce((sum, d) => sum + d.precipitation_accumulated, 0)`. -/
def histPrecipTotal (hd : List HistoricalDataPoint) : ℚ :=
  hd.foldl (fun s d => s + d.precipitation_accumulated) 0

/-- `historicalData.slice(-10)`: the last ten elements (all of them when the
array is shorter). -/
def histRecentData (hd : List HistoricalDataPoint) : List HistoricalDataPoint :=
  hd.drop (hd.length - 10)

/-- One iteration of the "Recent Observations" rendering loop. -/
def histObsLine (env : JsEnv) (obs : HistoricalDataPoint) : String :=
  "**" ++ formatLocalTime env obs.timestamp ++ ":** "
  ++ formatTemperature obs.temperature ++ ", "
  ++ toFixed 0 obs.humidity ++ "% humidity, "
  ++ formatWindSpeed obs.wind_speed ++ "\n"

/-- `get_historical_weather`: `data.data || []`, a no-data message when the
list is empty, otherwise summary statistics followed by the last ten points
in array order. -/
def get_historical_weather (env : JsEnv) (station_id start_date end_date : String)
    (res : Except Thrown WeatherXMHistoricalResponse) : String :=
  match res with
  | .error t => caughtText t
  | .ok data =>
    let historicalData := data.data.getD []
    if historicalData.length = 0 then
      "No historical data available for station " ++ station_id
        ++ " between " ++ start_date ++ " and " ++ end_date
    else
      (histRecentData historicalData).foldl (fun md obs => md ++ histObsLine env obs)
        ("# Historical Weather Data - " ++ station_id ++ "\n\n"
         ++ "Period: " ++ start_date ++ " to " ++ end_date ++ "\n"
         ++ "Data points: " ++ toString historicalData.length ++ "\n\n"
         ++ "## Summary Statistics\n\n"
         ++ "**Temperature Range:** " ++ formatTemperature (histMinTemp historicalData)
           ++ " to " ++ formatTemperature (histMaxTemp historicalData) ++ "\n"
         ++ "**Average Temperature:** " ++ formatTemperature (histAvgTemp historicalData) ++ "\n"
         ++ "**Total Precipitation:** " ++ formatPrecipitation (histPrecipTotal historicalData)
           ++ "\n\n"
         ++ "## Recent Observations\n\n")

/-- One iteration of the `get_weather_alerts` rendering loop. -/
def alertSection (env : JsEnv) (alert : WeatherAlert) : String :=
  "## " ++ alert.title ++ "\n\n"
  ++ "**Type:** " ++ alert.type ++ "\n"
  ++ "**Severity:** " ++ alert.severity ++ "\n"
  ++ "**Effective:** " ++ formatLocalTime env alert.effective ++ "\n"
  ++ "**Expires:** " ++ formatLocalTime env alert.expires ++ "\n"
  ++ "**Areas:** " ++ String.intercalate ", " alert.areas ++ "\n\n"
  ++ alert.description ++ "\n\n"
  ++ "---\n\n"

/-- `get_weather_alerts`: `data.alerts || []`, a no-alerts message when the
list is empty, otherwise one section per alert. -/
def get_weather_alerts (env : JsEnv) (latitude longitude : ℚ)
    (res : Except Thrown WeatherXMAlertsResponse) : String :=
  match res with
  | .error t => caughtText t
  | .ok data =>
    let alerts := data.alerts.getD []
    if alerts.length = 0 then
      "No active weather alerts for location " ++ jsNumRepr latitude ++ ", "
        ++ jsNumRepr longitude
    else
      alerts.foldl (fun md alert => md ++ alertSection env alert)
        ("# Weather Alerts\n\n"
         ++ "Location: " ++ jsNumRepr latitude ++ ", " ++ jsNumRepr longitude ++ "\n"
         ++ "Active alerts: " ++ toString alerts.length ++ "\n\n")

/-- One iteration of the `find_weather_stations` rendering loop. -/
def stationSectionFind (env : JsEnv) (station : Station) : String :=
  "## " ++ station.name ++ "\n\n"
  ++ "**Station ID:** " ++ station.id ++ "\n"
  ++ "**Name:** " ++ station.name ++ "\n"
  ++ "**Location:** " ++ toFixed 4 station.location.lat ++ ", "
    ++ toFixed 4 station.location.lon ++ "\n"
  ++ "**Elevation:** " ++ jsNumRepr station.location.elevation ++ "m\n"
  ++ "**Created:** " ++ formatLocalTime env station.createdAt ++ "\n"
  ++ "**Cell Index:** " ++ station.cellIndex ++ "\n"
  ++ "\n---\n\n"

/-- `find_weather_stations`: `data.stations || []`, a no-stations message
when the list is empty, otherwise one section per station. -/
def find_weather_stations (env : JsEnv) (latitude longitude radius : ℚ)
    (res : Except Thrown WeatherXMStationsResponse) : String :=
  match res with
  | .error t => caughtText t
  | .ok data =>
    let stations := data.stations.getD []
    if stations.length = 0 then
      "# WeatherXM Stations\n\nNo weather stations found within " ++ jsNumRepr radius
        ++ "km of " ++ jsNumRepr latitude ++ ", " ++ jsNumRepr longitude ++ "."
    else
      stations.foldl (fun md station => md ++ stationSectionFind env station)
        ("# WeatherXM Stations Near " ++ jsNumRepr latitude ++ ", "
         ++ jsNumRepr longitude ++ "\n\n"
         ++ "Found " ++ toString stations.length ++ " station(s) within "
         ++ jsNumRepr radius ++ "km\n\n")

/-- One iteration of the `search_weather_stations` rendering loop. -/
def stationSectionSearch (env : JsEnv) (station : Station) : String :=
  "## " ++ station.name ++ "\n\n"
  ++ "**Station ID:** " ++ station.id ++ "\n"
  ++ "**Location:** " ++ toFixed 4 station.location.lat ++ ", "
    ++ toFixed 4 station.location.lon ++ "\n"
  ++ "**Elevation:** " ++ jsNumRepr station.location.elevation ++ "m\n"
  ++ "**Created:** " ++ formatLocalTime env station.createdAt ++ "\n"
  ++ "**Cell Index:** " ++ station.cellIndex ++ "\n"
  ++ "\n---\n\n"

/-- `search_weather_stations`: `results.stations || []`, a no-match message
when the list is empty, otherwise a header with total, page and
`Math.ceil(total / limit)` page count, then one section per station.
(ℚ division by zero yields 0 where JS would give Infinity; no theorem
depends on a zero `limit`.) -/
def search_weather_stations (env : JsEnv) (query : String) (page limit : ℚ)
    (res : Except Thrown WeatherXMSearchResponse) : String :=
  match res with
  | .error t => caughtText t
  | .ok data =>
    let results := data.results
    let stations := results.stations.getD []
    if stations.length = 0 then
      "No weather stations found matching \"" ++ query ++ "\""
    else
      stations.foldl (fun md station => md ++ stationSectionSearch env station)
        ("# Weather Station Search Results\n\n"
         ++ "Query: \"" ++ query ++ "\"\n"
         ++ "Found " ++ jsNumRepr results.total ++ " total stations\n"
         ++ "Page " ++ jsNumRepr results.page ++ " of "
         ++ toString (jsCeil (results.total / results.limit)) ++ "\n\n")

/-- One iteration of the `get_weather_cells` rendering loop. -/
def cellSection (cell : Cell) : String :=
  "## Cell " ++ cell.index ++ "\n\n"
  ++ "**Center:** " ++ toFixed 4 cell.center.lat ++ ", "
    ++ toFixed 4 cell.center.lon ++ "\n"
  ++ "**Elevation:** " ++ jsNumRepr cell.center.elevation ++ "m\n"
  ++ "**Stations:** " ++ jsNumRepr cell.station_count ++ "\n"
  ++ "\n---\n\n"

/-- `get_weather_cells`: `data.cells || []`, a no-cells message when the list
is empty, otherwise one section per cell. -/
def get_weather_cells (latitude longitude radius : ℚ)
    (res : Except Thrown WeatherXMCellsResponse) : String :=
  match res with
  | .error t => caughtText t
  | .ok data =>
    let cells := data.cells.getD []
    if cells.length = 0 then
      "No weather cells found within " ++ jsNumRepr radius ++ "km of "
        ++ jsNumRepr latitude ++ ", " ++ jsNumRepr longitude
    else
      cells.foldl (fun md cell => md ++ cellSection cell)
        ("# WeatherXM Cells Near " ++ jsNumRepr latitude ++ ", "
         ++ jsNumRepr longitude ++ "\n\n"
         ++ "Found " ++ toString cells.length ++ " cell(s) within "
         ++ jsNumRepr radius ++ "km\n\n")

/-- The quality-interpretation if/else chain of `get_station_health`
(`score >= 0.8` / `>= 0.6` / `>= 0.4` / otherwise). -/
def overallAssessment (score : ℚ) : String :=
  if 0.8 ≤ score then "**Overall Assessment:** Excellent data quality\n"
  else if 0.6 ≤ score then "**Overall Assessment:** Good data quality\n"
  else if 0.4 ≤ score then "**Overall Assessment:** Fair data quality\n"
  else "**Overall Assessment:** Poor data quality - use with caution\n"

/-- `get_station_health`: location and quality scores followed by the
four-tier overall assessment. -/
def get_station_health (env : JsEnv) (station_id : String)
    (res : Except Thrown WeatherXMLatestResponse) : String :=
  match res with
  | .error t => caughtText t
  | .ok data =>
    "# Station Health - " ++ station_id ++ "\n\n"
    ++ "**Location:** " ++ toFixed 4 data.location.lat ++ ", "
      ++ toFixed 4 data.location.lon ++ "\n"
    ++ "**Elevation:** " ++ jsNumRepr data.location.elevation ++ "m\n\n"
    ++ "**Health Check:** " ++ formatLocalTime env data.health.timestamp ++ "\n\n"
    ++ "**Data Quality Score:** "
      ++ toFixed 0 (data.health.data_quality.score * 100) ++ "%\n"
    ++ "**Location Quality Score:** "
      ++ toFixed 0 (data.health.location_quality.score * 100) ++ "%\n"
    ++ "**Location Quality Reason:** " ++ data.health.location_quality.reason ++ "\n\n"
    ++ overallAssessment data.health.data_quality.score

/-- `get_station_local_time`: shifts the wall clock by the
`getTimezoneOffset` of the parsed observation timestamp and renders it with
`toLocaleString`. -/
def get_station_local_time (env : JsEnv) (station_id : String)
    (res : Except Thrown WeatherXMLatestResponse) : String :=
  match res with
  | .error t => caughtText t
  | .ok data =>
    let stationTimezone := env.tzOffsetAt (env.dateParse data.observation.timestamp)
    let localTime := env.nowMs - stationTimezone * 60 * 1000
    "Current local time at station " ++ station_id ++ " ("
      ++ toFixed 4 data.location.lat ++ ", " ++ toFixed 4 data.location.lon ++ "): "
      ++ env.localeString localTime

/-! ## Auxiliary definitions for the development -/

/-- Concatenation of the strings a rendering loop appends, in list order. -/
def renderAll {α : Type} (f : α → String) : List α → String
  | [] => ""
  | x :: xs => f x ++ renderAll f xs

/-- A concrete host environment used to instantiate universally quantified
theorems at specific inputs. -/
def sampleEnv : JsEnv := ⟨0, fun _ => 0, fun _ => "", fun _ => 0⟩

/-- A concrete historical data point used to instantiate theorems. -/
def samplePointA : HistoricalDataPoint :=
  ⟨"2024-01-01T00:00:00Z", 5, 4, 2, 0, 1.2, 80, 3, 5, 90, 1, 1013, 0, "rain"⟩

/-- A second concrete historical data point used to instantiate theorems. -/
def samplePointB : HistoricalDataPoint :=
  ⟨"2024-01-01T01:00:00Z", 7, 6, 2, 0, 0.8, 75, 4, 6, 180, 2, 1014, 100, "cloudy"⟩

/-! ## General lemmas -/

theorem ratFloor_eq (q : ℚ) : ratFloor q = ⌊q⌋ := Rat.floor_def.symm

theorem append_ne_empty_left {p : String} (s : String) (hp : p ≠ "") :
    p ++ s ≠ "" := by
  intro h
  apply hp
  have hd := congrArg String.data h
  rw [String.data_append] at hd
  exact String.ext (List.append_eq_nil.mp hd).1

theorem foldl_append_renderAll {α : Type} (f : α → String) :
    ∀ (l : List α) (s : String),
      l.foldl (fun md x => md ++ f x) s = s ++ renderAll f l
  | [], s => by simp [renderAll]
  | x :: xs, s => by
    simp only [List.foldl_cons, renderAll]
    rw [foldl_append_renderAll f xs (s ++ f x), String.append_assoc]

theorem ite_eq_line_iff {c : Prop} [Decidable c] {L : String} (hL : L ≠ "") :
    ((if c then L else "") = L ↔ c) ∧ ((if c then L else "") = "" ↔ ¬c) := by
  constructor
  · constructor
    · intro h
      by_cases hc : c
      · exact hc
      · rw [if_neg hc] at h
        exact absurd h.symm hL
    · intro hc
      rw [if_pos hc]
  · constructor
    · intro h hc
      rw [if_pos hc] at h
      exact hL h
    · intro hc
      rw [if_neg hc]

theorem le_foldl_max_init : ∀ (l : List ℚ) (a : ℚ), a ≤ l.foldl max a
  | [], _ => le_refl _
  | x :: xs, a => le_trans (le_max_left a x) (le_foldl_max_init xs (max a x))

theorem le_foldl_max_of_mem :
    ∀ {l : List ℚ} {x : ℚ} (a : ℚ), x ∈ l → x ≤ l.foldl max a
  | y :: ys, x, a, hx => by
    rcases List.mem_cons.mp hx with h | h
    · subst h
      exact le_trans (le_max_right a x) (le_foldl_max_init ys (max a x))
    · exact le_foldl_max_of_mem (max a y) h

theorem foldl_max_mem : ∀ (l : List ℚ) (a : ℚ), l.foldl max a = a ∨ l.foldl max a ∈ l
  | [], _ => Or.inl rfl
  | x :: xs, a => by
    rcases foldl_max_mem xs (max a x) with h | h
    · rcases max_choice a x with he | he
      · exact Or.inl (by rw [List.foldl_cons, h, he])
      · exact Or.inr (by rw [List.foldl_cons, h, he]; exact List.mem_cons_self x xs)
    · exact Or.inr (List.mem_cons_of_mem x h)

theorem foldl_min_init_le : ∀ (l : List ℚ) (a : ℚ), l.foldl min a ≤ a
  | [], _ => le_refl _
  | x :: xs, a => le_trans (foldl_min_init_le xs (min a x)) (min_le_left a x)

theorem foldl_min_le_of_mem :
    ∀ {l : List ℚ} {x : ℚ} (a : ℚ), x ∈ l → l.foldl min a ≤ x
  | y :: ys, x, a, hx => by
    rcases List.mem_cons.mp hx with h | h
    · subst h
      exact le_trans (foldl_min_init_le ys (min a x)) (min_le_right a x)
    · exact foldl_min_le_of_mem (min a y) h

theorem foldl_min_mem : ∀ (l : List ℚ) (a : ℚ), l.foldl min a = a ∨ l.foldl min a ∈ l
  | [], _ => Or.inl rfl
  | x :: xs, a => by
    rcases foldl_min_mem xs (min a x) with h | h
    · rcases min_choice a x with he | he
      · exact Or.inl (by rw [List.foldl_cons, h, he])
      · exact Or.inr (by rw [List.foldl_cons, h, he]; exact List.mem_cons_self x xs)
    · exact Or.inr (List.mem_cons_of_mem x h)

/-! ## Claim theorems -/

/-- C1 (amended): `weatherxmApiRequest` maps 401/404/429/500 responses to
their fixed error messages; any other non-2xx response yields the
upstream-error message carrying the numeric status and status text,
*provided* that message does not contain "fetch" (otherwise the surrounding
catch clause rewrites it to the network-unavailable message); a success
status returns the parsed JSON body unchanged and un-validated. -/
theorem c1_status_code_mapping {α : Type} :
    (∀ (st : String) (jr : Except JsError α),
        weatherxmApiRequest (.response 401 st jr) =
          .error ⟨"Invalid API key. Please check your WeatherXM API key."⟩)
  ∧ (∀ (st : String) (jr : Except JsError α),
        weatherxmApiRequest (.response 404 st jr) =
          .error ⟨"Station not found or no data available"⟩)
  ∧ (∀ (st : String) (jr : Except JsError α),
        weatherxmApiRequest (.response 429 st jr) =
          .error ⟨"API rate limit exceeded. Please try again later."⟩)
  ∧ (∀ (st : String) (jr : Except JsError α),
        weatherxmApiRequest (.response 500 st jr) =
          .error ⟨"WeatherXM service temporarily unavailable"⟩)
  ∧ (∀ (status : ℕ) (st : String) (jr : Except JsError α),
        responseOk status = false →
        status ≠ 401 → status ≠ 404 → status ≠ 429 → status ≠ 500 →
        jsIncludes ("WeatherXM API error: " ++ toString status ++ " " ++ st) "fetch" = false →
        weatherxmApiRequest (.response status st jr) =
          .error ⟨"WeatherXM API error: " ++ toString status ++ " " ++ st⟩)
  ∧ (∀ (status : ℕ) (st : String) (v : α),
        responseOk status = true →
        weatherxmApiRequest (.response status st (.ok v)) = .ok v) := by
  refine ⟨fun st jr => by with_unfolding_all rfl,
          fun st jr => by with_unfolding_all rfl,
          fun st jr => by with_unfolding_all rfl,
          fun st jr => by with_unfolding_all rfl,
          fun status st jr hok h1 h2 h3 h4 hf => ?_,
          fun status st v hok => ?_⟩
  · simp [weatherxmApiRequest, weatherxmTryBlock, hok, h1, h2, h3, h4, hf]
  · simp [weatherxmApiRequest, weatherxmTryBlock, hok]

/-- C1 counterexample: a non-2xx status whose status text contains "fetch"
(here 418 "fetch") does not yield the upstream-error value the claim
requires; the catch clause rewrites it to the network-unavailable message. -/
theorem c1_counterexample :
    weatherxmApiRequest (α := Unit) (.response 418 "fetch" (.ok ())) =
      .error ⟨"Unable to connect to WeatherXM service. Please check your internet connection."⟩
  ∧ (JsError.mk "Unable to connect to WeatherXM service. Please check your internet connection."
      ≠ JsError.mk "WeatherXM API error: 418 fetch") := by
  constructor
  · with_unfolding_all rfl
  · decide

/-- C1 witness: the amended mapping at concrete inputs (a 503 response with
an ordinary status text, and a 200 response with a parsed body). -/
theorem c1_status_code_mapping_witness :
    weatherxmApiRequest (α := Unit) (.response 503 "Service Unavailable" (.ok ())) =
      .error ⟨"WeatherXM API error: 503 Service Unavailable"⟩
  ∧ weatherxmApiRequest (α := Unit) (.response 200 "OK" (.ok ())) = .ok () := by
  constructor
  · exact (c1_status_code_mapping (α := Unit)).2.2.2.2.1 503 "Service Unavailable" (.ok ())
      (by decide) (by decide) (by decide) (by decide) (by decide) (by decide)
  · exact (c1_status_code_mapping (α := Unit)).2.2.2.2.2 200 "OK" () (by decide)

/-- C2: every one of the ten tool handlers converts a thrown `Error` at its
catch boundary into the successful text "Error: <message>", and any
non-Error throw into "Error: Unknown error"; composing the current-weather
handler with the API client on an upstream 401 response yields exactly
"Error: Invalid API key. Please check your WeatherXM API key.". -/
theorem c2_handler_error_boundary :
    (∀ env sid e, get_current_weather env sid (.error (.error e)) = "Error: " ++ e.message)
  ∧ (∀ env sid, get_current_weather env sid (.error .nonError) = "Error: Unknown error")
  ∧ (∀ env sid hours e,
      get_hourly_forecast env sid hours (.error (.error e)) = "Error: " ++ e.message)
  ∧ (∀ env sid hours,
      get_hourly_forecast env sid hours (.error .nonError) = "Error: Unknown error")
  ∧ (∀ env sid days e,
      get_daily_forecast env sid days (.error (.error e)) = "Error: " ++ e.message)
  ∧ (∀ env sid days,
      get_daily_forecast env sid days (.error .nonError) = "Error: Unknown error")
  ∧ (∀ env sid sd ed e,
      get_historical_weather env sid sd ed (.error (.error e)) = "Error: " ++ e.message)
  ∧ (∀ env sid sd ed,
      get_historical_weather env sid sd ed (.error .nonError) = "Error: Unknown error")
  ∧ (∀ env lat lon e,
      get_weather_alerts env lat lon (.error (.error e)) = "Error: " ++ e.message)
  ∧ (∀ env lat lon,
      get_weather_alerts env lat lon (.error .nonError) = "Error: Unknown error")
  ∧ (∀ env lat lon r e,
      find_weather_stations env lat lon r (.error (.error e)) = "Error: " ++ e.message)
  ∧ (∀ env lat lon r,
      find_weather_stations env lat lon r (.error .nonError) = "Error: Unknown error")
  ∧ (∀ env q p l e,
      search_weather_stations env q p l (.error (.error e)) = "Error: " ++ e.message)
  ∧ (∀ env q p l,
      search_weather_stations env q p l (.error .nonError) = "Error: Unknown error")
  ∧ (∀ lat lon r e,
      get_weather_cells lat lon r (.error (.error e)) = "Error: " ++ e.message)
  ∧ (∀ lat lon r,
      get_weather_cells lat lon r (.error .nonError) = "Error: Unknown error")
  ∧ (∀ env sid e, get_station_health env sid (.error (.error e)) = "Error: " ++ e.message)
  ∧ (∀ env sid, get_station_health env sid (.error .nonError) = "Error: Unknown error")
  ∧ (∀ env sid e,
      get_station_local_time env sid (.error (.error e)) = "Error: " ++ e.message)
  ∧ (∀ env sid,
      get_station_local_time env sid (.error .nonError) = "Error: Unknown error")
  ∧ (∀ env sid (st : String) (jr : Except JsError WeatherXMLatestResponse),
      runTool (get_current_weather env sid) (.response 401 st jr) =
        "Error: Invalid API key. Please check your WeatherXM API key.") :=
  ⟨fun _ _ _ => rfl, fun _ _ => rfl,
   fun _ _ _ _ => rfl, fun _ _ _ => rfl,
   fun _ _ _ _ => rfl, fun _ _ _ => rfl,
   fun _ _ _ _ _ => rfl, fun _ _ _ _ => rfl,
   fun _ _ _ _ => rfl, fun _ _ _ => rfl,
   fun _ _ _ _ _ => rfl, fun _ _ _ _ => rfl,
   fun _ _ _ _ _ => rfl, fun _ _ _ _ => rfl,
   fun _ _ _ _ => rfl, fun _ _ _ => rfl,
   fun _ _ _ => rfl, fun _ _ => rfl,
   fun _ _ _ => rfl, fun _ _ => rfl,
   fun _ _ _ _ => by with_unfolding_all rfl⟩

/-- C3 (amended): the catch clause of `weatherxmApiRequest` classifies by the
substring "fetch" in the caught error's message, not by the kind of failure:
a transport failure whose message contains "fetch" (as Node's fetch
rejections do) becomes the network-unavailable error; an error without
"fetch" in its message is rethrown unchanged; and a non-transport failure —
a `response.json()` parse error on a success response — whose message
mentions "fetch" is also mapped to the network-unavailable error. -/
theorem c3_fetch_substring_mapping {α : Type} :
    (∀ e : JsError, jsIncludes e.message "fetch" = true →
        weatherxmApiRequest (α := α) (.failure e) =
          .error ⟨"Unable to connect to WeatherXM service. Please check your internet connection."⟩)
  ∧ (∀ e : JsError, jsIncludes e.message "fetch" = false →
        weatherxmApiRequest (α := α) (.failure e) = .error e)
  ∧ (∀ (status : ℕ) (st : String) (pe : JsError),
        responseOk status = true → jsIncludes pe.message "fetch" = true →
        weatherxmApiRequest (α := α) (.response status st (.error pe)) =
          .error ⟨"Unable to connect to WeatherXM service. Please check your internet connection."⟩) := by
  refine ⟨fun e hf => ?_, fun e hf => ?_, fun status st pe hok hf => ?_⟩
  · simp [weatherxmApiRequest, weatherxmTryBlock, hf, networkErrorMessage]
  · simp [weatherxmApiRequest, weatherxmTryBlock, hf]
  · simp [weatherxmApiRequest, weatherxmTryBlock, hok, hf, networkErrorMessage]

/-- C3 counterexample: a failure that is not transport-level — a JSON parse
error on a 200 response whose message quotes the body and thus contains
"fetch" — is nevertheless mapped to the network-unavailable error,
contradicting "no other kind of failure is mapped to NetworkUnavailable". -/
theorem c3_counterexample :
    weatherxmApiRequest (α := Unit)
      (.response 200 "OK" (.error ⟨"Unexpected token f, fetch is not valid JSON"⟩)) =
      .error ⟨"Unable to connect to WeatherXM service. Please check your internet connection."⟩ := by
  with_unfolding_all rfl

/-- C3 witness: the amended mapping at concrete inputs (Node's transport
rejection "fetch failed", and a rethrown unrelated error). -/
theorem c3_fetch_substring_mapping_witness :
    weatherxmApiRequest (α := Unit) (.failure ⟨"fetch failed"⟩) =
      .error ⟨"Unable to connect to WeatherXM service. Please check your internet connection."⟩
  ∧ weatherxmApiRequest (α := Unit) (.failure ⟨"socket hang up"⟩) =
      .error ⟨"socket hang up"⟩ := by
  constructor
  · exact (c3_fetch_substring_mapping (α := Unit)).1 ⟨"fetch failed"⟩ (by decide)
  · exact (c3_fetch_substring_mapping (α := Unit)).2.1 ⟨"socket hang up"⟩ (by decide)

/-- C4: `formatTemperature c` is exactly the Fahrenheit value (c×9/5+32,
`toFixed(1)`) followed by "°F (", the Celsius value (`toFixed(1)`) and
"°C)"; in particular the output contains `toFixed 1 c` immediately followed
by "°C". -/
theorem c4_formatTemperature_shape (c : ℚ) :
    formatTemperature c = toFixed 1 ((c * 9) / 5 + 32) ++ "°F (" ++ toFixed 1 c ++ "°C)"
  ∧ ∃ pre suf, formatTemperature c = pre ++ (toFixed 1 c ++ "°C") ++ suf := by
  have hlit : ("°C" ++ ")" : String) = "°C)" := rfl
  refine ⟨by simp [formatTemperature, String.append_assoc], 
          toFixed 1 ((c * 9) / 5 + 32) ++ "°F (", ")", ?_⟩
  simp [formatTemperature, String.append_assoc, hlit]

/-- C5: for degrees in [0,360), `getWindDirection` returns one of the 16
fixed labels, the one at index `round(d/22.5) mod 16`, and is periodic with
period 360. -/
theorem c5_wind_direction (d : ℚ) (h0 : 0 ≤ d) (h1 : d < 360) :
    getWindDirection d ∈ directions16
  ∧ getWindDirection d =
      directions16.getD ((Int.tmod (jsRound (d / 22.5)) 16).toNat) "undefined"
  ∧ getWindDirection d = getWindDirection (d + 360) := by
  have hi0 : 0 ≤ jsRound (d / 22.5) := by
    rw [jsRound, ratFloor_eq, Int.le_floor]
    push_cast
    positivity
  have htm : Int.tmod (jsRound (d / 22.5)) 16 = jsRound (d / 22.5) % 16 :=
    Int.tmod_eq_emod hi0 (by norm_num)
  have hm0 : 0 ≤ jsRound (d / 22.5) % 16 := Int.emod_nonneg _ (by norm_num)
  have hm1 : jsRound (d / 22.5) % 16 < 16 := Int.emod_lt_of_pos _ (by norm_num)
  have hlen : directions16.length = 16 := rfl
  have hlt : (Int.tmod (jsRound (d / 22.5)) 16).toNat < directions16.length := by
    rw [htm, hlen]
    omega
  refine ⟨?_, rfl, ?_⟩
  · rw [getWindDirection, List.getD_eq_getElem directions16 "undefined" hlt]
    exact List.getElem_mem hlt
  · have harg : (d + 360) / 22.5 = d / 22.5 + 16 := by
      rw [add_div]
      norm_num
    have hsplit : d / 22.5 + 16 + 1/2 = (d / 22.5 + 1/2) + ((16:ℤ) : ℚ) := by
      push_cast
      ring
    have hround : jsRound ((d + 360) / 22.5) = jsRound (d / 22.5) + 16 := by
      rw [jsRound, jsRound, ratFloor_eq, ratFloor_eq, harg, hsplit, Int.floor_add_int]
    have htm2 : Int.tmod (jsRound ((d + 360) / 22.5)) 16 =
        Int.tmod (jsRound (d / 22.5)) 16 := by
      rw [hround, Int.tmod_eq_emod (by omega) (by norm_num), htm]
      omega
    rw [getWindDirection, getWindDirection, htm2]

/-- C5 witness: the theorem instantiated at 45 degrees. -/
theorem c5_wind_direction_witness :
    getWindDirection 45 ∈ directions16
  ∧ getWindDirection 45 =
      directions16.getD ((Int.tmod (jsRound ((45:ℚ) / 22.5)) 16).toNat) "undefined"
  ∧ getWindDirection 45 = getWindDirection (45 + 360) :=
  c5_wind_direction 45 (by norm_num) (by norm_num)

/-- C6: the station-health handler's four-tier data-quality label has
inclusive lower bounds 0.8 / 0.6 / 0.4; scores of exactly 0.8, 0.79999 and
0.4 land in Excellent, Good and Fair respectively; and the handler's output
ends with the selected assessment line. -/
theorem c6_quality_tiers :
    (∀ s : ℚ, 0.8 ≤ s →
        overallAssessment s = "**Overall Assessment:** Excellent data quality\n")
  ∧ (∀ s : ℚ, 0.6 ≤ s → s < 0.8 →
        overallAssessment s = "**Overall Assessment:** Good data quality\n")
  ∧ (∀ s : ℚ, 0.4 ≤ s → s < 0.6 →
        overallAssessment s = "**Overall Assessment:** Fair data quality\n")
  ∧ (∀ s : ℚ, s < 0.4 →
        overallAssessment s = "**Overall Assessment:** Poor data quality - use with caution\n")
  ∧ overallAssessment 0.8 = "**Overall Assessment:** Excellent data quality\n"
  ∧ overallAssessment 0.79999 = "**Overall Assessment:** Good data quality\n"
  ∧ overallAssessment 0.4 = "**Overall Assessment:** Fair data quality\n"
  ∧ (∀ env sid data, ∃ pre,
        get_station_health env sid (.ok data) =
          pre ++ overallAssessment data.health.data_quality.score) := by
  refine ⟨fun s h => ?_, fun s h h2 => ?_, fun s h h2 => ?_, fun s h => ?_,
          ?_, ?_, ?_, fun env sid data => ?_⟩
  · rw [overallAssessment, if_pos h]
  · rw [overallAssessment, if_neg (not_le.mpr h2), if_pos h]
  · rw [overallAssessment, if_neg (not_le.mpr (by linarith)),
        if_neg (not_le.mpr h2), if_pos h]
  · rw [overallAssessment, if_neg (not_le.mpr (by linarith)),
        if_neg (not_le.mpr (by linarith)), if_neg (not_le.mpr h)]
  · norm_num [overallAssessment]
  · norm_num [overallAssessment]
  · norm_num [overallAssessment]
  · refine ⟨"# Station Health - " ++ sid ++ "\n\n"
      ++ "**Location:** " ++ toFixed 4 data.location.lat ++ ", "
        ++ toFixed 4 data.location.lon ++ "\n"
      ++ "**Elevation:** " ++ jsNumRepr data.location.elevation ++ "m\n\n"
      ++ "**Health Check:** " ++ formatLocalTime env data.health.timestamp ++ "\n\n"
      ++ "**Data Quality Score:** "
        ++ toFixed 0 (data.health.data_quality.score * 100) ++ "%\n"
      ++ "**Location Quality Score:** "
        ++ toFixed 0 (data.health.location_quality.score * 100) ++ "%\n"
      ++ "**Location Quality Reason:** " ++ data.health.location_quality.reason ++ "\n\n", ?_⟩
    simp [get_station_health, String.append_assoc]

/-- C6 witness: the Good tier at a concrete mid-range score. -/
theorem c6_quality_tiers_witness :
    overallAssessment 0.7 = "**Overall Assessment:** Good data quality\n" :=
  c6_quality_tiers.2.1 0.7 (by norm_num) (by norm_num)

/-- C7: on a non-empty historical dataset the handler's summary statistics
are the true minimum, maximum and arithmetic mean of the temperatures and
the sum of the accumulated precipitation, and the "Recent Observations"
section renders exactly `min(N,10)` entries, the tail of the array in
original order. -/
theorem c7_historical_statistics (env : JsEnv) (sid sd ed : String)
    (hd : List HistoricalDataPoint) (hne : hd ≠ []) :
    (histMaxTemp hd ∈ histTemperatures hd ∧ ∀ t ∈ histTemperatures hd, t ≤ histMaxTemp hd)
  ∧ (histMinTemp hd ∈ histTemperatures hd ∧ ∀ t ∈ histTemperatures hd, histMinTemp hd ≤ t)
  ∧ histAvgTemp hd = (histTemperatures hd).sum / (hd.length : ℚ)
  ∧ histPrecipTotal hd = (hd.map (·.precipitation_accumulated)).sum
  ∧ (histRecentData hd).length = min hd.length 10
  ∧ histRecentData hd <:+ hd
  ∧ ∃ pre, get_historical_weather env sid sd ed (.ok ⟨some hd⟩) =
      pre ++ renderAll (histObsLine env) (histRecentData hd) := by
  obtain ⟨p, ps, rfl⟩ : ∃ p ps, hd = p :: ps := by
    cases hd with
    | nil => exact absurd rfl hne
    | cons p ps => exact ⟨p, ps, rfl⟩
  have htt : histTemperatures (p :: ps) = p.temperature :: histTemperatures ps := rfl
  refine ⟨⟨?_, ?_⟩, ⟨?_, ?_⟩, ?_, ?_, ?_, ?_, ?_⟩
  · rw [histMaxTemp, htt]
    rcases foldl_max_mem (p.temperature :: histTemperatures ps)
        ((p.temperature :: histTemperatures ps).headD 0) with h | h
    · rw [h]
      exact List.mem_cons_self _ _
    · exact h
  · intro t ht
    rw [histMaxTemp]
    exact le_foldl_max_of_mem _ ht
  · rw [histMinTemp, htt]
    rcases foldl_min_mem (p.temperature :: histTemperatures ps)
        ((p.temperature :: histTemperatures ps).headD 0) with h | h
    · rw [h]
      exact List.mem_cons_self _ _
    · exact h
  · intro t ht
    rw [histMinTemp]
    exact foldl_min_le_of_mem _ ht
  · rw [histAvgTemp, List.sum_eq_foldl]
    congr 1
    simp [histTemperatures]
  · rw [histPrecipTotal, List.sum_eq_foldl, List.foldl_map]
  · simp only [histRecentData, List.length_drop]
    omega
  · exact List.drop_suffix _ _
  · have hlen0 : ¬((p :: ps).length = 0) := by simp
    refine ⟨"# Historical Weather Data - " ++ sid ++ "\n\n"
      ++ "Period: " ++ sd ++ " to " ++ ed ++ "\n"
      ++ "Data points: " ++ toString (p :: ps).length ++ "\n\n"
      ++ "## Summary Statistics\n\n"
      ++ "**Temperature Range:** " ++ formatTemperature (histMinTemp (p :: ps))
        ++ " to " ++ formatTemperature (histMaxTemp (p :: ps)) ++ "\n"
      ++ "**Average Temperature:** " ++ formatTemperature (histAvgTemp (p :: ps)) ++ "\n"
      ++ "**Total Precipitation:** " ++ formatPrecipitation (histPrecipTotal (p :: ps))
        ++ "\n\n"
      ++ "## Recent Observations\n\n", ?_⟩
    simp only [get_historical_weather, Option.getD, if_neg hlen0]
    exact foldl_append_renderAll _ _ _

/-- C7 witness: the theorem instantiated on a concrete two-point dataset. -/
theorem c7_historical_statistics_witness :
    (histMaxTemp [samplePointA, samplePointB] ∈ histTemperatures [samplePointA, samplePointB]
      ∧ ∀ t ∈ histTemperatures [samplePointA, samplePointB],
          t ≤ histMaxTemp [samplePointA, samplePointB])
  ∧ (histMinTemp [samplePointA, samplePointB] ∈ histTemperatures [samplePointA, samplePointB]
      ∧ ∀ t ∈ histTemperatures [samplePointA, samplePointB],
          histMinTemp [samplePointA, samplePointB] ≤ t)
  ∧ histAvgTemp [samplePointA, samplePointB] =
      (histTemperatures [samplePointA, samplePointB]).sum
        / (([samplePointA, samplePointB] : List HistoricalDataPoint).length : ℚ)
  ∧ histPrecipTotal [samplePointA, samplePointB] =
      (([samplePointA, samplePointB] : List HistoricalDataPoint).map
        (·.precipitation_accumulated)).sum
  ∧ (histRecentData [samplePointA, samplePointB]).length =
      min ([samplePointA, samplePointB] : List HistoricalDataPoint).length 10
  ∧ histRecentData [samplePointA, samplePointB] <:+ [samplePointA, samplePointB]
  ∧ ∃ pre, get_historical_weather sampleEnv "STN" "2024-01-01" "2024-01-02"
        (.ok ⟨some [samplePointA, samplePointB]⟩) =
      pre ++ renderAll (histObsLine sampleEnv) (histRecentData [samplePointA, samplePointB]) :=
  c7_historical_statistics sampleEnv "STN" "2024-01-01" "2024-01-02"
    [samplePointA, samplePointB] (by simp)

/-- C8: the current-weather output contains the wind-gust line exactly when
gust > sustained speed, and the UV, solar-irradiance, precipitation-rate and
precipitation-accumulated lines exactly when the respective value is
strictly positive; otherwise the corresponding segment is empty. -/
theorem c8_conditional_lines (env : JsEnv) (sid : String) (data : WeatherXMLatestResponse) :
    ∃ A B F gustSeg uvSeg solarSeg rateSeg accSeg,
      get_current_weather env sid (.ok data) =
        A ++ gustSeg ++ B ++ uvSeg ++ solarSeg ++ rateSeg ++ accSeg ++ F
    ∧ ((gustSeg = "**Wind Gust:** " ++ formatWindSpeed data.observation.wind_gust ++ "\n")
        ↔ data.observation.wind_gust > data.observation.wind_speed)
    ∧ (gustSeg = "" ↔ ¬(data.observation.wind_gust > data.observation.wind_speed))
    ∧ ((uvSeg = "**UV Index:** " ++ toFixed 1 data.observation.uv_index ++ "\n")
        ↔ data.observation.uv_index > 0)
    ∧ (uvSeg = "" ↔ ¬(data.observation.uv_index > 0))
    ∧ ((solarSeg = "**Solar Irradiance:** "
          ++ toFixed 0 data.observation.solar_irradiance ++ " W/m²\n")
        ↔ data.observation.solar_irradiance > 0)
    ∧ (solarSeg = "" ↔ ¬(data.observation.solar_irradiance > 0))
    ∧ ((rateSeg = "**Precipitation Rate:** "
          ++ formatPrecipitation data.observation.precipitation_rate ++ "/hr\n")
        ↔ data.observation.precipitation_rate > 0)
    ∧ (rateSeg = "" ↔ ¬(data.observation.precipitation_rate > 0))
    ∧ ((accSeg = "**Precipitation Accumulated:** "
          ++ formatPrecipitation data.observation.precipitation_accumulated ++ "\n")
        ↔ data.observation.precipitation_accumulated > 0)
    ∧ (accSeg = "" ↔ ¬(data.observation.precipitation_accumulated > 0)) := by
  have hgust : ("**Wind Gust:** " ++ (formatWindSpeed data.observation.wind_gust ++ "\n")) ≠ "" :=
    append_ne_empty_left _ (by decide)
  have huv : ("**UV Index:** " ++ (toFixed 1 data.observation.uv_index ++ "\n")) ≠ "" :=
    append_ne_empty_left _ (by decide)
  have hsolar : ("**Solar Irradiance:** "
      ++ (toFixed 0 data.observation.solar_irradiance ++ " W/m²\n")) ≠ "" :=
    append_ne_empty_left _ (by decide)
  have hrate : ("**Precipitation Rate:** "
      ++ (formatPrecipitation data.observation.precipitation_rate ++ "/hr\n")) ≠ "" :=
    append_ne_empty_left _ (by decide)
  have hacc : ("**Precipitation Accumulated:** "
      ++ (formatPrecipitation data.observation.precipitation_accumulated ++ "\n")) ≠ "" :=
    append_ne_empty_left _ (by decide)
  refine ⟨"# Current Weather\n\n"
      ++ "**Station ID:** " ++ sid ++ "\n"
      ++ "**Location:** " ++ toFixed 4 data.location.lat ++ ", "
        ++ toFixed 4 data.location.lon ++ "\n"
      ++ "**Elevation:** " ++ jsNumRepr data.location.elevation ++ "m\n\n"
      ++ "**Observed:** " ++ formatLocalTime env data.observation.timestamp ++ " - "
        ++ formatTimeAgo env data.observation.timestamp ++ "\n\n"
      ++ "**Temperature:** " ++ formatTemperature data.observation.temperature ++ "\n"
      ++ "**Feels Like:** " ++ formatTemperature data.observation.feels_like ++ "\n"
      ++ "**Conditions:** " ++ getWeatherIconDescription data.observation.icon ++ "\n"
      ++ "**Humidity:** " ++ toFixed 0 data.observation.humidity ++ "%\n"
      ++ "**Dew Point:** " ++ formatTemperature data.observation.dew_point ++ "\n"
      ++ "**Wind:** " ++ formatWindSpeed data.observation.wind_speed ++ " from "
        ++ getWindDirection data.observation.wind_direction ++ " ("
        ++ jsNumRepr data.observation.wind_direction ++ "°)\n",
    "**Pressure:** " ++ formatPressure data.observation.pressure ++ "\n",
    "\n**Data Quality Score:** "
      ++ toFixed 0 (data.health.data_quality.score * 100) ++ "%\n",
    (if data.observation.wind_gust > data.observation.wind_speed then
        "**Wind Gust:** " ++ formatWindSpeed data.observation.wind_gust ++ "\n" else ""),
    (if data.observation.uv_index > 0 then
        "**UV Index:** " ++ toFixed 1 data.observation.uv_index ++ "\n" else ""),
    (if data.observation.solar_irradiance > 0 then
        "**Solar Irradiance:** " ++ toFixed 0 data.observation.solar_irradiance ++ " W/m²\n"
      else ""),
    (if data.observation.precipitation_rate > 0 then
        "**Precipitation Rate:** "
          ++ formatPrecipitation data.observation.precipitation_rate ++ "/hr\n"
      else ""),
    (if data.observation.precipitation_accumulated > 0 then
        "**Precipitation Accumulated:** "
          ++ formatPrecipitation data.observation.precipitation_accumulated ++ "\n"
      else ""),
    ?_, ?_, ?_, ?_, ?_, ?_, ?_, ?_, ?_, ?_, ?_⟩
  · simp [get_current_weather, String.append_assoc]
  · exact (ite_eq_line_iff hgust).1
  · exact (ite_eq_line_iff hgust).2
  · exact (ite_eq_line_iff huv).1
  · exact (ite_eq_line_iff huv).2
  · exact (ite_eq_line_iff hsolar).1
  · exact (ite_eq_line_iff hsolar).2
  · exact (ite_eq_line_iff hrate).1
  · exact (ite_eq_line_iff hrate).2
  · exact (ite_eq_line_iff hacc).1
  · exact (ite_eq_line_iff hacc).2

/-- C9: a missing (null/absent) forecast field is coerced to the empty list
before any iteration, and both forecast handlers then return the
no-forecast message carrying the station id. -/
theorem c9_forecast_entity_coercion (env : JsEnv) (sid : String) (hours days : ℚ) :
    get_hourly_forecast env sid hours (.ok ⟨none⟩) =
      "No hourly forecast available for station " ++ sid
  ∧ get_hourly_forecast env sid hours (.ok ⟨none⟩) =
      get_hourly_forecast env sid hours (.ok ⟨some []⟩)
  ∧ get_daily_forecast env sid days (.ok ⟨none⟩) =
      "No daily forecast available for station " ++ sid
  ∧ get_daily_forecast env sid days (.ok ⟨none⟩) =
      get_daily_forecast env sid days (.ok ⟨some []⟩) :=
  ⟨rfl, rfl, rfl, rfl⟩

/-- C10: `formatTimeAgo` yields "just now" whenever the parsed instant is
less than one minute in the past (including any future instant, whose
difference is negative), and every other output carries only positive hour
and minute figures. -/
theorem c10_time_ago_clamp (env : JsEnv) (ts : String) :
    (env.nowMs - env.dateParse ts < 60000 → formatTimeAgo env ts = "just now")
  ∧ (formatTimeAgo env ts = "just now"
     ∨ (∃ m : ℤ, 1 ≤ m ∧ m < 60 ∧ formatTimeAgo env ts = toString m ++ "m ago")
     ∨ (∃ h : ℤ, 1 ≤ h ∧ formatTimeAgo env ts = toString h ++ "h ago")
     ∨ (∃ h m : ℤ, 1 ≤ h ∧ 1 ≤ m ∧ m < 60 ∧
          formatTimeAgo env ts = toString h ++ "h " ++ toString m ++ "m ago")) := by
  simp only [formatTimeAgo]
  rw [Int.fdiv_eq_ediv _ (by norm_num : (0:ℤ) ≤ 1000 * 60)]
  set D := env.nowMs - env.dateParse ts with hD
  constructor
  · intro h
    rw [if_pos (by omega : D / (1000 * 60) < 1)]
  · by_cases h1 : D / (1000 * 60) < 1
    · left
      rw [if_pos h1]
    · rw [if_neg h1]
      by_cases h2 : D / (1000 * 60) < 60
      · right; left
        exact ⟨D / (1000 * 60), by omega, h2, by rw [if_pos h2]⟩
      · rw [if_neg h2]
        have hnn : 0 ≤ D / (1000 * 60) := by omega
        rw [Int.fdiv_eq_ediv _ (by norm_num : (0:ℤ) ≤ 60),
            Int.tmod_eq_emod hnn (by norm_num)]
        by_cases h3 : D / (1000 * 60) % 60 = 0
        · right; right; left
          exact ⟨D / (1000 * 60) / 60, by omega, by rw [if_pos h3]⟩
        · right; right; right
          exact ⟨D / (1000 * 60) / 60, D / (1000 * 60) % 60, by omega, by omega, by omega,
                by rw [if_neg h3]⟩

/-- C10 witness: 59999 ms elapsed and a timestamp in the future both render
as "just now". -/
theorem c10_time_ago_clamp_witness :
    formatTimeAgo ⟨59999, fun _ => 0, fun _ => "", fun _ => 0⟩ "t" = "just now"
  ∧ formatTimeAgo ⟨0, fun _ => 1000000, fun _ => "", fun _ => 0⟩ "t" = "just now" :=
  ⟨(c10_time_ago_clamp ⟨59999, fun _ => 0, fun _ => "", fun _ => 0⟩ "t").1 (by decide),
   (c10_time_ago_clamp ⟨0, fun _ => 1000000, fun _ => "", fun _ => 0⟩ "t").1 (by decide)⟩
